import Mathlib

/-!
Shallow embedding of the WSB sentiment client view
(src/frontend/wsbsentiment-frontend/src/app/page.tsx).

The page keeps five pieces of local state (url, maxComments, data, loading,
error).  `fetchSentiment` validates the url by substring containment of
"reddit.com", issues the request, and handles the response in a
try/catch/finally.  The rendered comment list drops moderator/bot authors and
deleted/removed bodies, and colors each retained comment by a three-way
sentiment threshold.  Numbers are modelled as rationals; the response and any
thrown value are passed in explicitly as data.
-/

namespace WSB

/-- A comment as deserialized from the backend response (type Comment in page.tsx). -/
structure Comment where
  id : String
  body : String
  sentiment : ℚ
  score : Int
  author : String
  created_utc : Int
deriving DecidableEq

/-- A post analysis as deserialized from the backend response (type PostData in page.tsx). -/
structure PostData where
  id : String
  title : String
  selftext : String
  sentiment : ℚ
  score : Int
  url : String
  num_comments : Int
  created_utc : Int
  top_comments : List Comment
deriving DecidableEq

/-- Does `hay` start with `needle`? (helper for the substring scan). -/
def startsWithList (needle hay : List Char) : Bool :=
  match needle, hay with
  | [], _ => true
  | _ :: _, [] => false
  | a :: n, b :: h => a == b && startsWithList n h

/-- Does `hay` contain `needle` as a contiguous run? Scans every start position. -/
def includesScan (needle hay : List Char) : Bool :=
  match hay with
  | [] => needle.isEmpty
  | b :: t => startsWithList needle (b :: t) || includesScan needle t

/-- JavaScript `s.includes(sub)`: substring containment. -/
def strIncludes (s sub : String) : Bool :=
  includesScan sub.data s.data

/-- Specification-side notion: `s` contains the literal substring `sub`. -/
def ContainsSubstring (s sub : String) : Prop :=
  ∃ p q : String, s = p ++ sub ++ q

/-- Character-wise lowercasing, modelling the case folding of the
case-insensitive regex test (the patterns "mod" and "bot" are lowercase ASCII). -/
def lowerStr (s : String) : String :=
  ⟨s.data.map Char.toLower⟩

/-- Specification-side notion: `s` case-insensitively contains the substring `sub`
(for a lowercase `sub`). -/
def CIContains (s sub : String) : Prop :=
  ContainsSubstring (lowerStr s) sub

/-- page.tsx line 43: `url.includes("reddit.com")`. -/
def validateUrl (url : String) : Bool :=
  strIncludes url "reddit.com"

/-- page.tsx line 44: the message shown when validation fails. -/
def validationMessage : String := "Please enter a valid Reddit post URL"

/-- page.tsx line 58: the fallback message when the error body has no usable detail. -/
def genericFailureMessage : String := "Failed to fetch sentiment"

/-- A value thrown inside the try block: either an Error instance carrying its
`.message`, or any other value carrying its `String(e)` representation. -/
inductive Thrown where
  | error (msg : String)
  | nonError (repr : String)
deriving DecidableEq

/-- A successfully parsed JSON response body: its interpretation as a PostData
(the code casts without validation) and the value of its `detail` field
(`none` when absent). -/
structure JsonBody where
  asPost : PostData
  detail : Option String
deriving DecidableEq

/-- An HTTP response: its ok flag and the result of `res.json()`
(`Except.error m` when the body is absent or unparseable, `m` the parse failure message). -/
structure HttpResponse where
  ok : Bool
  body : Except String JsonBody

/-- The outcome of `fetch`: a resolved response, or a rejection with a thrown value. -/
inductive FetchResult where
  | resolved (res : HttpResponse)
  | rejected (t : Thrown)

/-- The five useState cells of the Home component (page.tsx lines 32-36). -/
structure ClientState where
  url : String
  maxComments : Int
  data : Option PostData
  loading : Bool
  error : Option String
deriving DecidableEq

/-- JavaScript `d || fb` for an optional string: the string when present and
truthy (nonempty), else the fallback. -/
def jsOrString (d : Option String) (fb : String) : String :=
  match d with
  | some m => if m = "" then fb else m
  | none => fb

/-- The try block of fetchSentiment (page.tsx lines 49-61): on a non-ok response
the parsed body's detail (or the generic fallback) is thrown as an Error; a
json-parse failure throws the parse error itself; on ok the body is the data. -/
def tryFetch (r : FetchResult) : Except Thrown PostData :=
  match r with
  | .rejected t => .error t
  | .resolved res =>
    if res.ok then
      match res.body with
      | .ok obj => .ok obj.asPost
      | .error parseMsg => .error (.error parseMsg)
    else
      match res.body with
      | .ok obj => .error (.error (jsOrString obj.detail genericFailureMessage))
      | .error parseMsg => .error (.error parseMsg)

/-- page.tsx lines 39-41: setLoading(true); setError(null); setData(null). -/
def preRequestState (s : ClientState) : ClientState :=
  { s with loading := true, error := none, data := none }

/-- page.tsx lines 60-67: setData on success; the catch clause sets the error to
the Error message, or to the String form of a non-Error thrown value. -/
def applyCatch (s : ClientState) (res : Except Thrown PostData) : ClientState :=
  match res with
  | .ok d => { s with data := some d }
  | .error (.error m) => { s with error := some m }
  | .error (.nonError v) => { s with error := some v }

/-- fetchSentiment (page.tsx lines 38-71): clear state, validate, then
try/catch with a finally clearing the loading flag.  The second component
records whether an outbound request was issued. -/
def fetchSentiment (s : ClientState) (r : FetchResult) : ClientState × Bool :=
  let s1 := preRequestState s
  if validateUrl s1.url then
    ({ applyCatch s1 (tryFetch r) with loading := false }, true)
  else
    ({ s1 with error := some validationMessage, loading := false }, false)

/-- The form boundary: the submit button is `disabled={loading || !url}`
(page.tsx line 125), so a submit event while loading (or with an empty url)
does nothing and issues no request. -/
def submitEvent (s : ClientState) (r : FetchResult) : ClientState × Bool :=
  if s.loading || s.url == "" then (s, false) else fetchSentiment s r

/-- The three display buckets derived from a sentiment value. -/
inductive Bucket where
  | positive
  | negative
  | neutral
deriving DecidableEq

/-- The CSS class string attached to each bucket (page.tsx lines 162-167). -/
def bucketClass : Bucket → String
  | .positive => "bg-green-900 border-green-600"
  | .negative => "bg-red-900 border-red-600"
  | .neutral => "bg-gray-800 border-gray-700"

/-- The classification decision of page.tsx lines 162-167. -/
def classify (sentiment : ℚ) : Bucket :=
  if sentiment > 0.1 then .positive
  else if sentiment < -0.1 then .negative
  else .neutral

/-- sentimentClass (page.tsx lines 162-167): the conditional class string. -/
def sentimentClass (sentiment : ℚ) : String :=
  if sentiment > 0.1 then "bg-green-900 border-green-600"
  else if sentiment < -0.1 then "bg-red-900 border-red-600"
  else "bg-gray-800 border-gray-700"

/-- page.tsx lines 158-160: a comment is dropped when `/mod|bot/i` matches its
author (case-insensitive containment of a lowercase literal) or its body is
exactly "[deleted]" or "[removed]". -/
def shouldDrop (c : Comment) : Bool :=
  strIncludes (lowerStr c.author) "mod" || strIncludes (lowerStr c.author) "bot" ||
  c.body == "[deleted]" || c.body == "[removed]"

/-- The rendered comment list (page.tsx lines 157-183): the map returns null
for dropped comments, so exactly the non-dropped comments render, in order. -/
def filterComments (cs : List Comment) : List Comment :=
  cs.filter (fun c => !shouldDrop c)

/-! ### Correctness of the substring scan -/

theorem startsWithList_iff (needle : List Char) :
    ∀ hay : List Char, startsWithList needle hay = true ↔ ∃ q, needle ++ q = hay := by
  induction needle with
  | nil =>
    intro hay
    simp [startsWithList]
  | cons a n ih =>
    intro hay
    cases hay with
    | nil =>
      simp [startsWithList]
    | cons b h =>
      simp only [startsWithList, Bool.and_eq_true, beq_iff_eq, ih h, List.cons_append,
        List.cons.injEq]
      constructor
      · rintro ⟨rfl, q, rfl⟩
        exact ⟨q, rfl, rfl⟩
      · rintro ⟨q, rfl, rfl⟩
        exact ⟨rfl, q, rfl⟩

theorem includesScan_iff (needle : List Char) :
    ∀ hay : List Char, includesScan needle hay = true ↔ ∃ p q, p ++ needle ++ q = hay := by
  intro hay
  induction hay with
  | nil =>
    simp [includesScan, List.isEmpty_iff, List.append_eq_nil]
  | cons b t ih =>
    simp only [includesScan, Bool.or_eq_true, startsWithList_iff, ih]
    constructor
    · rintro (⟨q, hq⟩ | ⟨p, q, rfl⟩)
      · exact ⟨[], q, by simpa using hq⟩
      · exact ⟨b :: p, q, rfl⟩
    · rintro ⟨p, q, hpq⟩
      cases p with
      | nil =>
        exact Or.inl ⟨q, by simpa using hpq⟩
      | cons c p =>
        simp only [List.cons_append, List.cons.injEq] at hpq
        rcases hpq with ⟨rfl, rfl⟩
        exact Or.inr ⟨p, q, rfl⟩

theorem strIncludes_iff (s sub : String) :
    strIncludes s sub = true ↔ ContainsSubstring s sub := by
  unfold strIncludes ContainsSubstring
  rw [includesScan_iff]
  constructor
  · rintro ⟨p, q, h⟩
    refine ⟨⟨p⟩, ⟨q⟩, String.ext ?_⟩
    simpa [String.data_append] using h.symm
  · rintro ⟨p, q, rfl⟩
    exact ⟨p.data, q.data, by simp [String.data_append]⟩

theorem shouldDrop_iff (c : Comment) :
    shouldDrop c = true ↔
      CIContains c.author "mod" ∨ CIContains c.author "bot" ∨
      c.body = "[deleted]" ∨ c.body = "[removed]" := by
  unfold shouldDrop CIContains
  simp [Bool.or_eq_true, strIncludes_iff, or_assoc]

/-- Sample post body used to instantiate response payloads. -/
def samplePost : PostData :=
  ⟨"", "", "", 0, 0, "", 0, 0, []⟩

/-! ### Claims -/

/-- Claim C3: for every sentiment value, classify returns Positive exactly when
sentiment > 0.1, Negative exactly when sentiment < -0.1, and Neutral otherwise;
both boundaries 0.1 and -0.1 are Neutral; and the rendered class string is the
class of the computed bucket. -/
theorem c3_classify_thresholds (s : ℚ) :
    ((classify s = .positive ↔ s > 0.1) ∧
     (classify s = .negative ↔ s < -0.1) ∧
     (classify s = .neutral ↔ -0.1 ≤ s ∧ s ≤ 0.1)) ∧
    classify 0.1 = .neutral ∧ classify (-0.1) = .neutral ∧
    sentimentClass s = bucketClass (classify s) := by
  refine ⟨?_, ?_, ?_, ?_⟩
  · unfold classify
    split_ifs with h1 h2
    · exact ⟨iff_of_true rfl h1, iff_of_false (by decide) (by linarith),
        iff_of_false (by decide) (by rintro ⟨h3, h4⟩; linarith)⟩
    · exact ⟨iff_of_false (by decide) (by linarith), iff_of_true rfl h2,
        iff_of_false (by decide) (by rintro ⟨h3, h4⟩; linarith)⟩
    · push_neg at h1 h2
      exact ⟨iff_of_false (by decide) (by linarith),
        iff_of_false (by decide) (by linarith),
        iff_of_true rfl ⟨h2, h1⟩⟩
  · norm_num [classify]
  · norm_num [classify]
  · unfold classify sentimentClass bucketClass
    split_ifs <;> rfl

/-- Claim C10: classify is total with no precondition: every rational sentiment
value, including values outside [-1, 1], lands in exactly one of the three
buckets; values above 1 are Positive and values below -1 are Negative. -/
theorem c10_classify_total (s : ℚ) :
    (1 < s → classify s = .positive) ∧
    (s < -1 → classify s = .negative) ∧
    (classify s = .positive ∨ classify s = .negative ∨ classify s = .neutral) := by
  unfold classify
  split_ifs with h1 h2
  · exact ⟨fun _ => rfl, fun h => False.elim (by linarith), Or.inl rfl⟩
  · exact ⟨fun h => False.elim (by push_neg at h1; linarith), fun _ => rfl,
      Or.inr (Or.inl rfl)⟩
  · exact ⟨fun h => False.elim (by push_neg at h1; linarith),
      fun h => False.elim (by push_neg at h2; linarith),
      Or.inr (Or.inr rfl)⟩

/-- Witness for C10 at sentiment values 2 and -2, outside the assumed domain. -/
theorem c10_classify_total_witness :
    classify 2 = .positive ∧ classify (-2) = .negative :=
  ⟨(c10_classify_total 2).1 (by norm_num), (c10_classify_total (-2)).2.1 (by norm_num)⟩

/-- Claim C4: a comment is retained by the filter exactly when its author does
not case-insensitively contain "mod" or "bot" and its body is neither exactly
"[deleted]" nor exactly "[removed]". -/
theorem c4_filter_drops_iff (cs : List Comment) (c : Comment) :
    c ∈ filterComments cs ↔
      c ∈ cs ∧ ¬(CIContains c.author "mod" ∨ CIContains c.author "bot" ∨
        c.body = "[deleted]" ∨ c.body = "[removed]") := by
  unfold filterComments
  rw [List.mem_filter]
  constructor
  · rintro ⟨hm, hd⟩
    refine ⟨hm, ?_⟩
    rw [← shouldDrop_iff]
    simpa using hd
  · rintro ⟨hm, hd⟩
    refine ⟨hm, ?_⟩
    rw [← shouldDrop_iff] at hd
    simpa using hd

/-- Claim C5: the filtered comment list is a sublist of the input sequence:
filtering only removes elements and keeps the relative order of the rest. -/
theorem c5_filter_sublist_of_input (cs : List Comment) :
    List.Sublist (filterComments cs) cs :=
  List.filter_sublist cs

/-- Claim C9: the filter is idempotent, because the drop decision for a comment
depends only on its own author and body fields. -/
theorem c9_filter_idempotent (cs : List Comment) :
    filterComments (filterComments cs) = filterComments cs := by
  unfold filterComments
  rw [List.filter_filter]
  simp

/-- Claim C6: on every terminal outcome of a submission — success, validation
failure, error response, transport failure, or any non-network thrown value —
the loading flag is false when fetchSentiment finishes. -/
theorem c6_loading_cleared (s : ClientState) (r : FetchResult) :
    (fetchSentiment s r).1.loading = false := by
  cases hb : validateUrl s.url <;> simp [fetchSentiment, preRequestState, hb]

/-- Claim C7: a submit first resets data and error (the pre-request state holds
none for both), the outcome never depends on the previous data or error
payloads, and the final state never carries a result together with an error. -/
theorem c7_submit_clears_previous (s : ClientState) (r : FetchResult)
    (d : Option PostData) (e : Option String) :
    (preRequestState s).data = none ∧ (preRequestState s).error = none ∧
    fetchSentiment { s with data := d, error := e } r = fetchSentiment s r ∧
    ((fetchSentiment s r).1.data = none ∨ (fetchSentiment s r).1.error = none) := by
  refine ⟨rfl, rfl, rfl, ?_⟩
  cases hb : validateUrl s.url with
  | false => exact Or.inl (by simp [fetchSentiment, preRequestState, hb])
  | true =>
    cases htf : tryFetch r with
    | ok d2 => exact Or.inr (by simp [fetchSentiment, preRequestState, hb, htf, applyCatch])
    | error t =>
      cases t with
      | error m => exact Or.inl (by simp [fetchSentiment, preRequestState, hb, htf, applyCatch])
      | nonError v => exact Or.inl (by simp [fetchSentiment, preRequestState, hb, htf, applyCatch])

/-- Claim C8: while loading is true the submit control is disabled, so a
submit event changes nothing and issues no outbound request. -/
theorem c8_no_request_while_loading (s : ClientState) (r : FetchResult)
    (h : s.loading = true) :
    submitEvent s r = (s, false) := by
  simp [submitEvent, h]

/-- Witness for C8: a concrete loading state on which a submit is a no-op. -/
theorem c8_no_request_while_loading_witness :
    submitEvent ⟨"https://www.reddit.com/r/test", 50, none, true, none⟩
        (.rejected (.error "late")) =
      (⟨"https://www.reddit.com/r/test", 50, none, true, none⟩, false) :=
  c8_no_request_while_loading _ _ rfl

/-- Counterexample to Claim C1 as stated: on an input without "reddit.com" the
code sets the message "Please enter a valid Reddit post URL", not the message
"invalid post reference" the claim names. -/
theorem c1_counterexample :
    (fetchSentiment ⟨"not-a-link", 50, none, false, none⟩
        (.rejected (.error "boom"))).1.error ≠ some "invalid post reference" ∧
    (fetchSentiment ⟨"not-a-link", 50, none, false, none⟩
        (.rejected (.error "boom"))).1.error = some validationMessage := by
  decide

/-- Claim C1 (amended): validation accepts exactly the strings containing the
literal substring "reddit.com"; for every other string the submission issues no
network request, sets the validation error message, and ends not loading. -/
theorem c1_validate_amended (s : ClientState) (r : FetchResult) :
    (validateUrl s.url = true ↔ ContainsSubstring s.url "reddit.com") ∧
    (¬ ContainsSubstring s.url "reddit.com" →
      (fetchSentiment s r).2 = false ∧
      (fetchSentiment s r).1.error = some validationMessage ∧
      (fetchSentiment s r).1.loading = false) := by
  have hiff := strIncludes_iff s.url "reddit.com"
  refine ⟨hiff, fun h => ?_⟩
  have hv : validateUrl s.url = false := by
    cases hb : validateUrl s.url with
    | false => rfl
    | true => exact absurd (hiff.mp hb) h
  refine ⟨?_, ?_, ?_⟩ <;> simp [fetchSentiment, preRequestState, hv]

/-- Witness for the amended C1 on a concrete invalid input. -/
theorem c1_validate_amended_witness :
    (fetchSentiment ⟨"https://example.org/post", 50, none, false, none⟩
        (.rejected (.error "boom"))).2 = false ∧
    (fetchSentiment ⟨"https://example.org/post", 50, none, false, none⟩
        (.rejected (.error "boom"))).1.error = some validationMessage := by
  have h := c1_validate_amended ⟨"https://example.org/post", 50, none, false, none⟩
    (.rejected (.error "boom"))
  have hnc : ¬ ContainsSubstring "https://example.org/post" "reddit.com" := fun hc =>
    absurd (h.1.mpr hc) (by decide)
  exact ⟨(h.2 hnc).1, (h.2 hnc).2.1⟩

/-- Counterexample to Claim C2 as stated: on a non-success response whose body
is unparseable, the failure message is the parse failure's own description, not
the generic failure description the claim names. -/
theorem c2_counterexample :
    (fetchSentiment ⟨"https://www.reddit.com/r/test", 50, none, false, none⟩
        (.resolved ⟨false, .error "Unexpected end of JSON input"⟩)).1.error =
      some "Unexpected end of JSON input" ∧
    "Unexpected end of JSON input" ≠ genericFailureMessage := by
  decide

/-- Claim C2 (amended): on a non-success response the failure message is the
body's nonempty detail field when present; the generic description when the
body parses but detail is absent or empty; and the parse failure's own
description when the body is unparseable.  The final state is not loading. -/
theorem c2_failure_message (s : ClientState) (obj : JsonBody) (m parseMsg : String)
    (h : validateUrl s.url = true) :
    (obj.detail = some m → m ≠ "" →
      (fetchSentiment s (.resolved ⟨false, .ok obj⟩)).1.error = some m) ∧
    (obj.detail = none →
      (fetchSentiment s (.resolved ⟨false, .ok obj⟩)).1.error = some genericFailureMessage) ∧
    (obj.detail = some "" →
      (fetchSentiment s (.resolved ⟨false, .ok obj⟩)).1.error = some genericFailureMessage) ∧
    (fetchSentiment s (.resolved ⟨false, .error parseMsg⟩)).1.error = some parseMsg ∧
    (fetchSentiment s (.resolved ⟨false, .ok obj⟩)).1.loading = false := by
  refine ⟨?_, ?_, ?_, ?_, ?_⟩
  · intro hd hm
    simp [fetchSentiment, preRequestState, h, tryFetch, applyCatch, jsOrString, hd, hm]
  · intro hd
    simp [fetchSentiment, preRequestState, h, tryFetch, applyCatch, jsOrString, hd]
  · intro hd
    simp [fetchSentiment, preRequestState, h, tryFetch, applyCatch, jsOrString, hd]
  · simp [fetchSentiment, preRequestState, h, tryFetch, applyCatch]
  · simp [fetchSentiment, preRequestState, h]

/-- Witness for the amended C2: the backend answers with a detail of
"post not found" and the failure message is exactly that. -/
theorem c2_failure_message_witness :
    validateUrl "https://www.reddit.com/r/test" = true ∧
    (fetchSentiment ⟨"https://www.reddit.com/r/test", 50, none, false, none⟩
        (.resolved ⟨false, .ok ⟨samplePost, some "post not found"⟩⟩)).1.error =
      some "post not found" := by
  have h := c2_failure_message ⟨"https://www.reddit.com/r/test", 50, none, false, none⟩
    ⟨samplePost, some "post not found"⟩ "post not found" "x" (by decide)
  exact ⟨by decide, h.1 rfl (by decide)⟩

end WSB
